import Mathlib

/-!
# Verification of the Simulate-to-Survive narrative core

A shallow embedding, in Lean 4, of the narrative state machine and emotion
model of `simulate_to_survive` (files `core/emotion_system.py`,
`core/scene_manager.py`, `core/game.py`, `data/scenes.py`), together with
theorems checking the natural-language specification against it.

Conventions of the embedding:
* Python `float` values (timestamps, decay amounts) are modelled as `ℚ`;
  all arithmetic in the source is exact rational arithmetic on such values.
* Wall-clock reads (`time.time()`) become explicit `now : ℚ` parameters.
* Python dictionaries keyed by the closed `EmotionType` enum (always
  populated for every member) are modelled as total functions
  `EmotionType → _`; dictionaries with dynamic string keys are modelled as
  association lists in insertion order.
* Code that raises is modelled in `Except PyError`.
-/

namespace SimToSurvive

/-! ## Emotion model — `core/emotion_system.py` -/

/-- The closed five-member `EmotionType` enum, in its Python definition
(and hence iteration) order. -/
inductive EmotionType
  | obsession
  | anger
  | depression
  | affection
  | determination
deriving DecidableEq

/-- The `.value` of each enum member: its Chinese display name. -/
def EmotionType.display : EmotionType → String
  | .obsession => "执念"
  | .anger => "愤怒"
  | .depression => "压抑"
  | .affection => "情感"
  | .determination => "决心"

/-- Iteration order of `for emotion_type in EmotionType`. -/
def EmotionType.all : List EmotionType :=
  [.obsession, .anger, .depression, .affection, .determination]

/-- Position of an axis in the enumeration order (for tie-break statements). -/
def EmotionType.enumIdx : EmotionType → Nat
  | .obsession => 0
  | .anger => 1
  | .depression => 2
  | .affection => 3
  | .determination => 4

/-- The `EmotionValue` dataclass.  `value` is declared `int` in the source
but becomes a float after the first decayed update, so it is a `ℚ` here. -/
structure EmotionValue where
  value : ℚ := 0
  max_value : ℚ := 100
  min_value : ℚ := 0
  decay_rate : ℚ := 1/10
  last_update : ℚ
deriving DecidableEq

/-- `EmotionValue.update`: applies lazy decay (elapsed minutes times
`decay_rate`, subtracted together with adding `delta`), clamps to
`[min_value, max_value]`, and stamps `last_update`. -/
def EmotionValue.update (ev : EmotionValue) (delta : Int) (current_time : ℚ) :
    EmotionValue :=
  let time_diff : ℚ := (current_time - ev.last_update) / 60
  let decay_amount : ℚ := ev.decay_rate * time_diff
  { ev with
    value := max ev.min_value (min ev.max_value (ev.value + delta - decay_amount))
    last_update := current_time }

/-- `EmotionValue.set_value`: clamps and stores directly, bypassing decay;
stamps `last_update` with the current wall clock. -/
def EmotionValue.set_value (ev : EmotionValue) (v : Int) (now : ℚ) : EmotionValue :=
  { ev with
    value := max ev.min_value (min ev.max_value (v : ℚ))
    last_update := now }

/-- `EmotionValue.get_percentage`. -/
def EmotionValue.get_percentage (ev : EmotionValue) : ℚ :=
  (ev.value - ev.min_value) / (ev.max_value - ev.min_value)

/-- One entry of `EmotionSystem.emotion_history` (a Python dict with the
keys `emotion`, `old_value`, `new_value`, `delta`, `timestamp`). -/
structure HistoryEntry where
  emotion : String
  old_value : ℚ
  new_value : ℚ
  delta : ℚ
  timestamp : ℚ
deriving DecidableEq

/-- The `EmotionSystem`: its `emotions` dict is populated for every
`EmotionType` member at construction and its key set never changes, so it
is a total function here.  History entries are appended at the tail. -/
structure EmotionSystem where
  emotions : EmotionType → EmotionValue
  emotion_history : List HistoryEntry

/-- `EmotionSystem.__init__`: every axis starts at the dataclass defaults
with the configured decay rate; `last_update` is the construction time. -/
def EmotionSystem.init (decay_rate : ℚ) (now : ℚ) : EmotionSystem where
  emotions := fun _ => { decay_rate := decay_rate, last_update := now }
  emotion_history := []

/-- `EmotionSystem.update_emotion`.  The `if emotion_type in self.emotions`
guard is always true (the dict holds every member), so the update and the
history append always happen. -/
def EmotionSystem.update_emotion (sys : EmotionSystem) (t : EmotionType)
    (delta : Int) (now : ℚ) : EmotionSystem :=
  let old_value := (sys.emotions t).value
  let ev := (sys.emotions t).update delta now
  { emotions := fun u => if u = t then ev else sys.emotions u
    emotion_history := sys.emotion_history ++
      [{ emotion := t.display, old_value := old_value, new_value := ev.value
         delta := (delta : ℚ), timestamp := now }] }

/-- `EmotionSystem.set_emotion`.  Note the history entry stores the
*requested* value as `new_value` (source line 94), not the clamped one. -/
def EmotionSystem.set_emotion (sys : EmotionSystem) (t : EmotionType)
    (v : Int) (now : ℚ) : EmotionSystem :=
  let old_value := (sys.emotions t).value
  let ev := (sys.emotions t).set_value v now
  { emotions := fun u => if u = t then ev else sys.emotions u
    emotion_history := sys.emotion_history ++
      [{ emotion := t.display, old_value := old_value, new_value := (v : ℚ)
         delta := (v : ℚ) - old_value, timestamp := now }] }

/-- `EmotionSystem.get_emotion` (the `.get` default is never taken: the
dict is total). -/
def EmotionSystem.get_emotion (sys : EmotionSystem) (t : EmotionType) : ℚ :=
  (sys.emotions t).value

/-- `EmotionSystem.get_emotion_percentage`. -/
def EmotionSystem.get_emotion_percentage (sys : EmotionSystem) (t : EmotionType) : ℚ :=
  (sys.emotions t).get_percentage

/-- `EmotionSystem.get_all_emotions`: display name to value, in enum order. -/
def EmotionSystem.get_all_emotions (sys : EmotionSystem) : List (String × ℚ) :=
  EmotionType.all.map fun t => (t.display, sys.get_emotion t)

/-- The fold performed by Python's `max(items, key=...)`: it keeps the
current best and replaces it only on a strictly greater key, so the first
maximal element of the iteration wins ties. -/
def pyMaxFold (f : α → ℚ) (best : α) : List α → α
  | [] => best
  | y :: ys => pyMaxFold f (if f y > f best then y else best) ys

/-- `EmotionSystem.get_dominant_emotion`: Python
`max(self.emotions.items(), key=lambda x: x[1].value)` over the dict in
insertion (= enum) order, then the `> 0` gate.  The `if not self.emotions`
early return never fires (the dict is never empty). -/
def EmotionSystem.get_dominant_emotion (sys : EmotionSystem) : Option String :=
  let dominant := pyMaxFold (fun t => (sys.emotions t).value) EmotionType.obsession
    [EmotionType.anger, EmotionType.depression, EmotionType.affection,
     EmotionType.determination]
  if (sys.emotions dominant).value > 0 then some dominant.display else none

/-- Python `l[-n:]`: the last `n` elements (the whole list when shorter). -/
def lastN (n : Nat) (l : List α) : List α :=
  l.drop (l.length - n)

/-- `EmotionSystem.get_emotion_stability`: `max(0, 1 - variance/100)` over
the deltas of the last 10 history entries; `1` on an empty history. -/
def EmotionSystem.get_emotion_stability (sys : EmotionSystem) : ℚ :=
  if sys.emotion_history = [] then 1
  else
    let recent_changes := (lastN 10 sys.emotion_history).map (·.delta)
    let mean_change := recent_changes.sum / (recent_changes.length : ℚ)
    let variance : ℚ :=
      (recent_changes.map (fun c => (c - mean_change) ^ 2)).sum /
        (recent_changes.length : ℚ)
    max 0 (1 - variance / 100)

/-- The dict returned by `EmotionSystem.get_emotion_summary`. -/
structure EmotionSummary where
  values : List (String × ℚ)
  percentages : List (String × ℚ)
  total_value : ℚ
  dominant_emotion : Option String
  emotion_stability : ℚ

/-- `EmotionSystem.get_emotion_summary`. -/
def EmotionSystem.get_emotion_summary (sys : EmotionSystem) : EmotionSummary where
  values := sys.get_all_emotions
  percentages := EmotionType.all.map fun t => (t.display, sys.get_emotion_percentage t)
  total_value := (EmotionType.all.map fun t => sys.get_emotion t).sum
  dominant_emotion := sys.get_dominant_emotion
  emotion_stability := sys.get_emotion_stability

/-- `EmotionSystem.reset_emotions`: `set_value 0` on every axis (history
untouched; no history entries are appended since `EmotionValue.set_value`
is called directly). -/
def EmotionSystem.reset_emotions (sys : EmotionSystem) (now : ℚ) : EmotionSystem :=
  { sys with emotions := fun t => (sys.emotions t).set_value 0 now }

/-- One entry of the `emotions` mapping inside a save blob. -/
structure EmotionSaveEntry where
  name : String
  value : ℚ
  last_update : ℚ
deriving DecidableEq

/-- The dict produced by `EmotionSystem.save_emotions` / consumed by
`load_emotions`.  Both top-level keys may be absent in arbitrary input
data, hence the `Option`s. -/
structure EmotionSaveData where
  emotions : Option (List EmotionSaveEntry)
  history : Option (List HistoryEntry)

/-- `EmotionSystem.save_emotions`: every axis by display name with its raw
value and timestamp, plus the last 100 history entries. -/
def EmotionSystem.save_emotions (sys : EmotionSystem) : EmotionSaveData where
  emotions := some (EmotionType.all.map fun t =>
    { name := t.display, value := (sys.emotions t).value
      last_update := (sys.emotions t).last_update })
  history := some (lastN 100 sys.emotion_history)

/-- The `for emotion_type in EmotionType: if emotion_type.value ==
emotion_name: ... break` scan: first enum member with the given display
name. -/
def findEmotionType (name : String) : Option EmotionType :=
  EmotionType.all.find? fun t => t.display = name

/-- Applies one saved `emotions` entry the way `load_emotions` does:
the matching axis (if any) gets the stored `value` and `last_update`
assigned verbatim — no clamping. -/
def loadEmotionEntry (sys : EmotionSystem) (e : EmotionSaveEntry) : EmotionSystem :=
  match findEmotionType e.name with
  | none => sys
  | some t =>
    { sys with emotions := fun u => if u = t then
        { sys.emotions u with value := e.value, last_update := e.last_update }
      else sys.emotions u }

/-- `EmotionSystem.load_emotions`: assigns stored values verbatim for every
recognized name (unknown names are skipped), then replaces the history if
a `history` key is present. -/
def EmotionSystem.load_emotions (sys : EmotionSystem) (data : EmotionSaveData) :
    EmotionSystem :=
  let sys1 := match data.emotions with
    | none => sys
    | some entries => entries.foldl loadEmotionEntry sys
  match data.history with
  | none => sys1
  | some h => { sys1 with emotion_history := h }

/-! ### Call sequences over the emotion model (for the bounds invariant) -/

/-- One mutation call into the emotion model: `update_emotion` or
`set_emotion`, with its delta/value and wall-clock time. -/
inductive EmotionOp
  | update (t : EmotionType) (delta : Int) (now : ℚ)
  | setValue (t : EmotionType) (v : Int) (now : ℚ)

/-- Runs one call. -/
def applyOp (sys : EmotionSystem) : EmotionOp → EmotionSystem
  | .update t delta now => sys.update_emotion t delta now
  | .setValue t v now => sys.set_emotion t v now

/-- Runs a call sequence in order. -/
def applyOps (sys : EmotionSystem) (ops : List EmotionOp) : EmotionSystem :=
  ops.foldl applyOp sys

/-- The bound invariant: every axis value lies in `[min_value, max_value]`. -/
def InBounds (sys : EmotionSystem) : Prop :=
  ∀ t : EmotionType,
    (sys.emotions t).min_value ≤ (sys.emotions t).value ∧
    (sys.emotions t).value ≤ (sys.emotions t).max_value


/-! ## Narrative catalog — `data/scenes.py` -/

/-- The `ChoiceType` enum. -/
inductive ChoiceType
  | emotion
  | story
  | system
deriving DecidableEq

/-- The `Choice` dataclass.  `emotion_effects` defaults to `None` in the
source and is only ever consumed through the falsy test
`if choice.emotion_effects:` followed by `.items()` iteration, so `None`
and the empty dict coincide with `[]` here (insertion order preserved).
The `conditions` field defaults to `None` and is read by no code in the
repository, so it is not represented. -/
structure Choice where
  id : String
  text : String
  choice_type : ChoiceType
  emotion_effects : List (String × Int) := []
  next_scene : Option String := none
deriving DecidableEq

/-- The `SceneEvent` dataclass (presentation hints `background`,
`ambient_sound`, `music` are forwarded but never interpreted by the core
and are not represented). -/
structure SceneEvent where
  id : String
  text : String
  choices : List Choice
deriving DecidableEq

/-- The `Scene` dataclass of `data/scenes.py` (same remark on
presentation hints). -/
structure Scene where
  id : String
  title : String
  description : String
  events : List SceneEvent
deriving DecidableEq

/-- Scene `CH0_PHASE_01` from `data/scenes.py` (structure-bearing fields:
`id`, `title`, `description`, `events`; presentation hints omitted carry no
narrative logic). -/
def CH0_PHASE_01 : Scene where
  id := "CH0_PHASE_01"
  title := "晨雾·青云宗演武场"
  description := "清晨，薄雾笼罩演武场。数十名弟子整齐练剑，剑气纵横。主角独自在角落，木剑颤抖，动作生涩。"
  events := [
    { id := "CH0_E01",
      text := "【晨雾·青云宗演武场】\n\n薄雾笼罩着青云宗的演武场，数十名弟子正在晨练。剑气纵横，剑光如虹。\n\n而你，独自站在角落，手中的木剑微微颤抖。\n\n首席师兄一剑劈开三丈外的落叶，剑气如虹，引来阵阵喝彩。\n\n而你，连最基本的剑式都做不好。",
      choices := [
        { id := "CH0_CHOICE_01A",
          text := "我...我再练练",
          choice_type := .emotion,
          emotion_effects := [("执念", 10)] },
        { id := "CH0_CHOICE_01B",
          text := "总有一天我会证明给你们看",
          choice_type := .emotion,
          emotion_effects := [("愤怒", 15)] },
        { id := "CH0_CHOICE_01C",
          text := "沉默不语",
          choice_type := .emotion,
          emotion_effects := [("压抑", 12)] } ] },
    { id := "CH0_E02",
      text := "剑术考核开始了。\n\n你再次垫底。\n\n同门弟子当众嘲笑：\"废物，连剑都握不稳！\"\n\n阿璃偷偷想递给你一颗丹药，却被她父亲严厉地打断了。\n\n你感到无比的无力。",
      choices := [
        { id := "CH0_CHOICE_02A",
          text := "握紧拳头，默默承受",
          choice_type := .emotion,
          emotion_effects := [("压抑", 8), ("执念", 5)] },
        { id := "CH0_CHOICE_02B",
          text := "愤怒地瞪着嘲笑你的人",
          choice_type := .emotion,
          emotion_effects := [("愤怒", 12), ("执念", 8)] },
        { id := "CH0_CHOICE_02C",
          text := "看向阿璃，心中五味杂陈",
          choice_type := .emotion,
          emotion_effects := [("情感", 10), ("压抑", 5)] } ] },
    { id := "CH0_E03",
      text := "考核结束后，你独自坐在演武场的角落。\n\n远处传来弟子们的欢声笑语，而你只能看着手中的木剑发呆。\n\n这把木剑已经陪伴你三年了，却依然如新。\n\n因为你，连让它磨损的资格都没有。",
      choices := [
        { id := "CH0_CHOICE_03A",
          text := "继续练习，哪怕只是徒劳",
          choice_type := .emotion,
          emotion_effects := [("执念", 15), ("决心", 10)] },
        { id := "CH0_CHOICE_03B",
          text := "思考为什么自己这么弱",
          choice_type := .emotion,
          emotion_effects := [("压抑", 10), ("执念", 8)] },
        { id := "CH0_CHOICE_03C",
          text := "回忆阿璃的鼓励",
          choice_type := .emotion,
          emotion_effects := [("情感", 15), ("决心", 5)] } ] }
  ]

/-- Scene `CH0_PHASE_02` from `data/scenes.py` (structure-bearing fields:
`id`, `title`, `description`, `events`; presentation hints omitted carry no
narrative logic). -/
def CH0_PHASE_02 : Scene where
  id := "CH0_PHASE_02"
  title := "暮色·宗门庭院"
  description := "傍晚，夕阳西下。父亲林苍澜背对而立，玄色道袍被晚风吹动。石桌上散落断裂的木剑和药碗。"
  events := [
    { id := "CH0_E04",
      text := "【暮色·宗门庭院】\n\n傍晚时分，你被叫到宗门庭院。\n\n父亲林苍澜背对着你，玄色道袍被晚风吹动。石桌上散落着你断裂的木剑和药碗。\n\n远处传来弟子们的欢声笑语，与这里的压抑形成鲜明对比。",
      choices := [
        { id := "CH0_CHOICE_04A",
          text := "低头等待训斥",
          choice_type := .emotion,
          emotion_effects := [("压抑", 10)] },
        { id := "CH0_CHOICE_04B",
          text := "抬头直视父亲",
          choice_type := .emotion,
          emotion_effects := [("愤怒", 8), ("决心", 5)] },
        { id := "CH0_CHOICE_04C",
          text := "看向断裂的木剑",
          choice_type := .emotion,
          emotion_effects := [("执念", 12)] } ] },
    { id := "CH0_E05",
      text := "父亲缓缓转身，目光如刀。\n\n\"三年了，\"他的声音低沉而压抑，\"你连最基本的剑式都练不好。\"\n\n他指着石桌上的断裂木剑：\"连木剑都能被你握断，你还有什么用？\"\n\n\"三年内练不到筑基境，就滚出青云宗。\"",
      choices := [
        { id := "CH0_CHOICE_05A",
          text := "爹，我保证会努力",
          choice_type := .emotion,
          emotion_effects := [("压抑", 5), ("执念", 10)] },
        { id := "CH0_CHOICE_05B",
          text := "您是不是早就想赶我走？",
          choice_type := .emotion,
          emotion_effects := [("愤怒", 15), ("压抑", 8)] },
        { id := "CH0_CHOICE_05C",
          text := "我会证明给您看的",
          choice_type := .emotion,
          emotion_effects := [("决心", 20), ("执念", 12)] } ] },
    { id := "CH0_E06",
      text := "阿璃的父亲也来了。\n\n\"连剑都握不稳，将来魔族来了只能当炮灰。\"他冷笑着说，\"阿璃，少跟这种拖后腿的浪费时间。\"\n\n阿璃欲言又止，默默握紧腰间的右半玉佩。\n\n你感到前所未有的羞辱和愤怒。",
      choices := [
        { id := "CH0_CHOICE_06A",
          text := "握紧拳头，强忍怒火",
          choice_type := .emotion,
          emotion_effects := [("愤怒", 20), ("执念", 15)] },
        { id := "CH0_CHOICE_06B",
          text := "看向阿璃，寻求支持",
          choice_type := .emotion,
          emotion_effects := [("情感", 15), ("压抑", 10)] },
        { id := "CH0_CHOICE_06C",
          text := "在心中发誓要变强",
          choice_type := .emotion,
          emotion_effects := [("决心", 25), ("执念", 20)] } ] }
  ]

/-- Scene `CH0_PHASE_03` from `data/scenes.py` (structure-bearing fields:
`id`, `title`, `description`, `events`; presentation hints omitted carry no
narrative logic). -/
def CH0_PHASE_03 : Scene where
  id := "CH0_PHASE_03"
  title := "黄昏·后山小径"
  description := "黄昏时分，夕阳如血。主角独自坐在后山石阶上，手中握着阿璃的右半玉佩。远处传来弟子们的练剑声和笑声。"
  events := [
    { id := "CH0_E07",
      text := "【黄昏·后山小径】\n\n黄昏时分，你独自来到后山小径。\n\n夕阳如血，染红了整个天空。你坐在石阶上，手中握着阿璃的右半玉佩。\n\n远处传来弟子们的练剑声和笑声，而你只能在这里独自沉思。",
      choices := [
        { id := "CH0_CHOICE_07A",
          text := "回忆与阿璃的过往",
          choice_type := .emotion,
          emotion_effects := [("情感", 20)] },
        { id := "CH0_CHOICE_07B",
          text := "思考自己的处境",
          choice_type := .emotion,
          emotion_effects := [("压抑", 15), ("执念", 10)] },
        { id := "CH0_CHOICE_07C",
          text := "看着玉佩发呆",
          choice_type := .emotion,
          emotion_effects := [("情感", 10), ("执念", 8)] } ] },
    { id := "CH0_E08",
      text := "你想起三年前，阿璃将右半玉佩交给你时的情景。\n\n\"这是我们的约定，\"她说，\"无论发生什么，我们都要在一起。\"\n\n而现在，你连保护她的能力都没有。\n\n你想起父亲的话：\"三年内练不到筑基境，就滚出青云宗。\"\n\n你想起阿璃父亲的嘲讽：\"连剑都握不稳，将来魔族来了只能当炮灰。\"",
      choices := [
        { id := "CH0_CHOICE_08A",
          text := "回忆与阿璃的甜蜜时光",
          choice_type := .emotion,
          emotion_effects := [("情感", 25), ("决心", 15)] },
        { id := "CH0_CHOICE_08B",
          text := "回忆被嘲笑的痛苦经历",
          choice_type := .emotion,
          emotion_effects := [("愤怒", 20), ("执念", 15)] },
        { id := "CH0_CHOICE_08C",
          text := "思考变强的可能性",
          choice_type := .emotion,
          emotion_effects := [("决心", 30), ("执念", 20)] } ] },
    { id := "CH0_E09",
      text := "夜幕降临，你依然坐在石阶上。\n\n手中的玉佩在月光下微微发光，仿佛在诉说着什么。\n\n你想起阿璃今天欲言又止的样子，想起她父亲的话，想起自己的无能。\n\n你感到前所未有的孤独和绝望，但内心深处，还有一丝不甘。",
      choices := [
        { id := "CH0_CHOICE_09A",
          text := "我要变强，保护阿璃",
          choice_type := .emotion,
          emotion_effects := [("决心", 35), ("执念", 25)] },
        { id := "CH0_CHOICE_09B",
          text := "也许我真的不适合修炼",
          choice_type := .emotion,
          emotion_effects := [("压抑", 20), ("执念", 15)] },
        { id := "CH0_CHOICE_09C",
          text := "一定有办法的，一定有",
          choice_type := .emotion,
          emotion_effects := [("执念", 30), ("决心", 20)] } ] }
  ]

/-- Scene `CH0_PHASE_04` from `data/scenes.py` (structure-bearing fields:
`id`, `title`, `description`, `events`; presentation hints omitted carry no
narrative logic). -/
def CH0_PHASE_04 : Scene where
  id := "CH0_PHASE_04"
  title := "雨夜·修炼场"
  description := "深夜，暴雨如注。暴雨中的修炼场，积水倒映着主角的身影。主角疯狂挥剑，木剑不断出现裂痕。远处廊下父亲的身影被雨幕模糊。"
  events := [
    { id := "CH0_E10",
      text := "【雨夜·修炼场】\n\n深夜，暴雨如注。\n\n你独自来到修炼场，任由雨水打湿衣衫。积水倒映着你模糊的身影。\n\n你开始疯狂挥剑，木剑在雨中不断出现裂痕。\n\n远处廊下，父亲的身影被雨幕模糊，但他没有阻止你。",
      choices := [
        { id := "CH0_CHOICE_10A",
          text := "继续疯狂挥剑",
          choice_type := .emotion,
          emotion_effects := [("执念", 30), ("愤怒", 15)] },
        { id := "CH0_CHOICE_10B",
          text := "在雨中怒吼",
          choice_type := .emotion,
          emotion_effects := [("愤怒", 25), ("执念", 20)] },
        { id := "CH0_CHOICE_10C",
          text := "默默承受痛苦",
          choice_type := .emotion,
          emotion_effects := [("压抑", 20), ("执念", 25)] } ] },
    { id := "CH0_E11",
      text := "木剑终于断裂了。\n\n\"咔嚓\"一声，木剑在你手中断成两截。\n\n你跪在雨水中，看着断裂的木剑，感到前所未有的绝望。\n\n就在这时，你的脑海中响起一个声音：\n\n【检测到强烈执念，模拟系统启动中...】",
      choices := [
        { id := "CH0_CHOICE_11A",
          text := "这是...什么？",
          choice_type := .system,
          emotion_effects := [("执念", 35)] },
        { id := "CH0_CHOICE_11B",
          text := "幻觉吗？",
          choice_type := .system,
          emotion_effects := [("执念", 30)] },
        { id := "CH0_CHOICE_11C",
          text := "不管是什么，只要能变强就行",
          choice_type := .system,
          emotion_effects := [("执念", 40), ("决心", 25)] } ] },
    { id := "CH0_E12",
      text := "【模拟系统已启动】\n\n【距离魔族入侵还有3年】\n\n【首次模拟可预演未来，积累成长经验】\n\n【时间范围：3年（现实时间消耗：3天）】\n\n【精神力消耗：30点】\n\n你感到一股暖流涌入体内，仿佛看到了改变命运的希望。",
      choices := [
        { id := "CH0_CHOICE_12A",
          text := "接受系统，我要变强",
          choice_type := .system,
          next_scene := some "CH1_PHASE_01" },
        { id := "CH0_CHOICE_12B",
          text := "这是幻觉吗？",
          choice_type := .system,
          next_scene := some "CH1_PHASE_01" },
        { id := "CH0_CHOICE_12C",
          text := "不管是什么，只要能变强就行",
          choice_type := .system,
          next_scene := some "CH1_PHASE_01" } ] }
  ]

/-- Scene `CH1_PHASE_01` from `data/scenes.py` (structure-bearing fields:
`id`, `title`, `description`, `events`; presentation hints omitted carry no
narrative logic). -/
def CH1_PHASE_01 : Scene where
  id := "CH1_PHASE_01"
  title := "模拟启动·模式选择"
  description := "模拟系统启动界面，玩家需要选择模拟模式：激进冒险或见危立逃。"
  events := [
    { id := "CH1_E01",
      text := "【首次模拟启动中...】\n\n【时间范围：3年（现实时间消耗：3天）】\n\n【精神力消耗：30点（初始值：100点）】\n\n【请选择模拟模式：】",
      choices := [
        { id := "CH1_CHOICE_01A",
          text := "激进冒险：战斗收益+50%，失败死亡率+80%",
          choice_type := .system,
          emotion_effects := [("决心", 20)] },
        { id := "CH1_CHOICE_01B",
          text := "见危立逃：战斗收益-30%，失败死亡率0%",
          choice_type := .system,
          emotion_effects := [("压抑", 10)] } ] },
    { id := "CH1_E02",
      text := "【模式已确认】\n\n【模拟开始...】\n\n【时间：模拟第3个月】\n\n【场景：演武场】\n\n你再次站在演武场上，但这次，你有了改变命运的机会。",
      choices := [
        { id := "CH1_CHOICE_02A",
          text := "开始模拟",
          choice_type := .system,
          emotion_effects := [("决心", 15)] } ] }
  ]

/-- The `SCENES` dict, in insertion order. -/
def SCENES : List (String × Scene) :=
  [("CH0_PHASE_01", CH0_PHASE_01),
   ("CH0_PHASE_02", CH0_PHASE_02),
   ("CH0_PHASE_03", CH0_PHASE_03),
   ("CH0_PHASE_04", CH0_PHASE_04),
   ("CH1_PHASE_01", CH1_PHASE_01)]

/-- `get_scene`: dictionary lookup. -/
def get_scene (scene_id : String) : Option Scene :=
  (SCENES.find? fun p => p.1 = scene_id).map (fun p => p.2)

/-! ## Scene engine — `core/scene_manager.py` and `core/game.py`

Pygame rendering, fonts, audio and screenshots are presentation-layer
collaborators and are not represented; what is modelled is every piece of
state those files mutate on the narrative path: text-typewriter state
(it gates choice selection), per-scene cursor state, the scene registry,
pending transitions, and the emotion system. -/

/-- Exceptions the embedded engine code can raise. -/
inductive PyError
  | attributeError
  | indexError
  | systemExit
deriving DecidableEq

/-- The typewriter state of `Scene` (`full_text`, `current_text`,
`text_progress`, `text_complete`); `text_speed` is the constant 30. -/
structure TextState where
  full_text : String := ""
  current_text : String := ""
  text_progress : Nat := 0
  text_complete : Bool := false
deriving DecidableEq

/-- `Scene.set_text`. -/
def set_text (text : String) : TextState :=
  { full_text := text, current_text := "", text_progress := 0, text_complete := false }

/-- `Scene.advance_text`: completes a running typewriter; once complete it
calls `on_text_complete`, which is a no-op (`pass`) in every scene class. -/
def TextState.advance_text (ts : TextState) : TextState :=
  if ts.text_complete then ts
  else { ts with text_complete := true, current_text := ts.full_text }

/-- `Scene.update_text`; `int(...)` truncation equals `Rat.floor` because
the frame time `dt` is non-negative. -/
def TextState.update_text (ts : TextState) (dt : ℚ) : TextState :=
  if ¬ts.text_complete ∧ ts.text_progress < ts.full_text.length then
    let chars_to_add : Nat := (Rat.floor (30 * dt / 1000)).toNat
    let progress := min (ts.text_progress + chars_to_add) ts.full_text.length
    { ts with
      text_progress := progress
      current_text := ts.full_text.take progress
      text_complete := decide (ts.full_text.length ≤ progress) }
  else ts

/-- The mutable state of a `GameScene` instance. -/
structure GameSceneState where
  scene_id : String
  scene_data : Option Scene := none
  current_event_index : Nat := 0
  current_event : Option SceneEvent := none
  text : TextState := {}
  next_scene : Option String := none
  is_active : Bool := false
deriving DecidableEq

/-- The mutable state of a `MainMenuScene` instance (its `scene_id` is the
constant `"main_menu"`). -/
structure MenuState where
  text : TextState := {}
  next_scene : Option String := none
  is_active : Bool := false
deriving DecidableEq

/-- A registry slot of `SceneManager.scenes`: either a `MainMenuScene` or
a `GameScene`. -/
inductive SceneObj
  | menu (st : MenuState)
  | game (st : GameSceneState)
deriving DecidableEq

/-- `GameScene.load_scene_data`.  When the catalog lookup fails or the
scene has no events, the source replaces `scene_data` with a plain
fallback dict holding only placeholder text (no `Scene` value remains,
modelled as `none`); the cursor fields are left untouched in that branch.
The `ImportError` fallback cannot fire (the data module is part of the
program). -/
def GameSceneState.load_scene_data (gs : GameSceneState) : GameSceneState :=
  match get_scene gs.scene_id with
  | some sd =>
    match sd.events with
    | e0 :: _ =>
      { gs with
        scene_data := some sd, current_event_index := 0,
        current_event := some e0, text := set_text e0.text }
    | [] =>
      { gs with scene_data := none, text := set_text "这是一个游戏场景..." }
  | none =>
    { gs with scene_data := none, text := set_text "这是一个游戏场景..." }

/-- `Scene.activate` / `on_activate`: the menu sets its title text (and
starts music — presentation only); a game scene reloads its data. -/
def SceneObj.activate : SceneObj → SceneObj
  | .menu m => .menu { m with
      is_active := true,
      text := set_text "模拟生存 - Simulate to Survive" }
  | .game g => .game { g with is_active := true }.load_scene_data

/-- `Scene.deactivate` / `on_deactivate`: both classes do no state change
beyond the flag (`GameScene.save_scene_state` is `pass`; the menu stops
music). -/
def SceneObj.deactivate : SceneObj → SceneObj
  | .menu m => .menu { m with is_active := false }
  | .game g => .game { g with is_active := false }

/-- The `next_scene` attribute of a registry slot. -/
def SceneObj.get_next_scene : SceneObj → Option String
  | .menu m => m.next_scene
  | .game g => g.next_scene

/-- `self.current_scene.next_scene = None` in `SceneManager.update`. -/
def SceneObj.clear_next_scene : SceneObj → SceneObj
  | .menu m => .menu { m with next_scene := none }
  | .game g => .game { g with next_scene := none }

/-- `Scene.update` of both classes: text animation with the frame time. -/
def SceneObj.update_anim (dt : ℚ) : SceneObj → SceneObj
  | .menu m => .menu { m with text := m.text.update_text dt }
  | .game g => .game { g with text := g.text.update_text dt }

/-- The fixed key set of `SceneManager.scenes`: `_initialize_scenes`
populates exactly these seven ids and no code ever adds or removes one. -/
inductive SceneKey
  | main_menu
  | ch0_phase_01
  | ch0_phase_02
  | ch0_phase_03
  | ch0_phase_04
  | ch1_phase_01
  | settings
deriving DecidableEq

/-- Membership test `scene_id in self.scenes` with the resolved key. -/
def keyOfString (s : String) : Option SceneKey :=
  if s = "main_menu" then some .main_menu
  else if s = "CH0_PHASE_01" then some .ch0_phase_01
  else if s = "CH0_PHASE_02" then some .ch0_phase_02
  else if s = "CH0_PHASE_03" then some .ch0_phase_03
  else if s = "CH0_PHASE_04" then some .ch0_phase_04
  else if s = "CH1_PHASE_01" then some .ch1_phase_01
  else if s = "settings" then some .settings
  else none

/-- The id string of a registry key. -/
def SceneKey.name : SceneKey → String
  | .main_menu => "main_menu"
  | .ch0_phase_01 => "CH0_PHASE_01"
  | .ch0_phase_02 => "CH0_PHASE_02"
  | .ch0_phase_03 => "CH0_PHASE_03"
  | .ch0_phase_04 => "CH0_PHASE_04"
  | .ch1_phase_01 => "CH1_PHASE_01"
  | .settings => "settings"

/-- The registry as built by `_initialize_scenes` (`settings` is a second
`MainMenuScene` instance, a placeholder in the source). -/
def initSceneObj : SceneKey → SceneObj
  | .main_menu => .menu {}
  | .ch0_phase_01 => .game { scene_id := "CH0_PHASE_01" }
  | .ch0_phase_02 => .game { scene_id := "CH0_PHASE_02" }
  | .ch0_phase_03 => .game { scene_id := "CH0_PHASE_03" }
  | .ch0_phase_04 => .game { scene_id := "CH0_PHASE_04" }
  | .ch1_phase_01 => .game { scene_id := "CH1_PHASE_01" }
  | .settings => .menu {}

/-- Pointwise update of the registry. -/
def updKey (f : SceneKey → SceneObj) (k : SceneKey) (v : SceneObj) :
    SceneKey → SceneObj :=
  fun u => if u = k then v else f u

/-- Python dict assignment on an association list: replace an existing
key, else append. -/
def setAssoc (l : List (String × α)) (k : String) (v : α) : List (String × α) :=
  if l.any (fun p => p.1 = k) then
    l.map fun p => if p.1 = k then (k, v) else p
  else l ++ [(k, v)]

/-- `SceneManager` state: the registry, the reference to the active scene
object (`self.current_scene`), and the `scene_states` cache. -/
structure SceneManagerState where
  states : SceneKey → SceneObj
  current_scene : Option SceneKey := none
  scene_states : List (String × Option Scene) := []

/-- `SceneManager.__init__`. -/
def SceneManagerState.init : SceneManagerState where
  states := initSceneObj

/-- `SceneManager.load_scene`: unknown ids fall back to `"main_menu"`
with a printed warning; the current scene is deactivated and the target
activated.  Returns the console lines it prints. -/
def SceneManagerState.load_scene (sm : SceneManagerState) (scene_id : String) :
    SceneManagerState × List String :=
  let resolved := match keyOfString scene_id with
    | some k => (k, ([] : List String))
    | none => (SceneKey.main_menu,
        ["Warning: Scene '" ++ scene_id ++ "' not found, using main menu"])
  let key := resolved.1
  let states1 := match sm.current_scene with
    | none => sm.states
    | some c => updKey sm.states c (sm.states c).deactivate
  let states2 := updKey states1 key (states1 key).activate
  ({ sm with states := states2, current_scene := some key },
    resolved.2 ++ ["Loaded scene: " ++ key.name])

/-- `SceneManager.update`: animates the active scene, then consumes its
pending `next_scene` (if any) by loading that scene. -/
def SceneManagerState.update (sm : SceneManagerState) (dt : ℚ) : SceneManagerState :=
  match sm.current_scene with
  | none => sm
  | some c =>
    let obj := (sm.states c).update_anim dt
    let sm1 := { sm with states := updKey sm.states c obj }
    match obj.get_next_scene with
    | none => sm1
    | some ns =>
      let sm2 := { sm1 with states := updKey sm1.states c (sm1.states c).clear_next_scene }
      (sm2.load_scene ns).1

/-- `SceneManager.get_next_scene`. -/
def SceneManagerState.get_next_scene (sm : SceneManagerState) : Option String :=
  match sm.current_scene with
  | none => none
  | some c => (sm.states c).get_next_scene

/-- `SceneManager.save_scene_state`: caches the active object's
`scene_data` under its `scene_id` (a menu's `scene_id` is `"main_menu"`
and its `scene_data` the base class's empty dict). -/
def SceneManagerState.save_scene_state (sm : SceneManagerState) : SceneManagerState :=
  match sm.current_scene with
  | none => sm
  | some c =>
    match sm.states c with
    | .menu _ => { sm with scene_states := setAssoc sm.scene_states "main_menu" none }
    | .game g => { sm with scene_states := setAssoc sm.scene_states g.scene_id g.scene_data }

/-- The keyboard inputs relevant to the narrative path. -/
inductive Key
  | space
  | ret
  | num1
  | num2
  | num3
deriving DecidableEq

/-- `Game.update_emotion_by_name` delegates to
`self.emotion_system.update_emotion_by_name(emotion_name, delta)` — but
`EmotionSystem` defines no method of that name anywhere in the repository
(its callers in `game.py`, `test_story.py` and `debug_prologue.py` are the
only occurrences), so the call raises `AttributeError` for every display
name, recognized or not. -/
def Game.update_emotion_by_name (_es : EmotionSystem) (_emotion_name : String)
    (_delta : Int) : Except PyError EmotionSystem :=
  .error .attributeError

/-- The `for emotion, value in choice.emotion_effects.items()` loop of
`GameScene.on_choice_selected`: applies effects left to right through
`Game.update_emotion_by_name`; an uncaught exception aborts the loop. -/
def applyEffects (es : EmotionSystem) :
    List (String × Int) → Except PyError EmotionSystem
  | [] => .ok es
  | (name, v) :: rest =>
    match Game.update_emotion_by_name es name v with
    | .error e => .error e
    | .ok es1 => applyEffects es1 rest

/-- Python list indexing `l[i]` with negative-index wraparound;
out-of-range access raises `IndexError` (`none` here). -/
def pyListGet (l : List α) (i : Int) : Option α :=
  if 0 ≤ i then l.get? i.toNat
  else
    let j : Int := (l.length : Int) + i
    if 0 ≤ j then l.get? j.toNat else none

/-- `GameScene.move_to_next_event`: advances the cursor; past the last
event it wraps back to event 0 of the same scene. -/
def GameSceneState.move_to_next_event (gs : GameSceneState) : GameSceneState :=
  match gs.scene_data with
  | none => gs
  | some sd =>
    match sd.events with
    | [] => gs
    | e0 :: _ =>
      let idx := gs.current_event_index + 1
      match sd.events.get? idx with
      | some ev =>
        { gs with
          current_event_index := idx, current_event := some ev,
          text := set_text ev.text }
      | none =>
        { gs with
          current_event_index := 0, current_event := some e0,
          text := set_text e0.text }

/-- `GameScene.on_choice_selected`: the guard rejects (silently returns)
when there is no current event or `choice_index >= len(choices)`; then
the selected choice's emotion effects are applied and either a transition
is requested or the cursor moves on within the scene. -/
def GameSceneState.on_choice_selected (gs : GameSceneState) (es : EmotionSystem)
    (choice_index : Int) : Except PyError (GameSceneState × EmotionSystem) :=
  match gs.current_event with
  | none => .ok (gs, es)
  | some ev =>
    if (ev.choices.length : Int) ≤ choice_index then .ok (gs, es)
    else
      match pyListGet ev.choices choice_index with
      | none => .error .indexError
      | some choice =>
        match applyEffects es choice.emotion_effects with
        | .error e => .error e
        | .ok es1 =>
          match choice.next_scene with
          | some ns => .ok ({ gs with next_scene := some ns }, es1)
          | none => .ok (gs.move_to_next_event, es1)

/-- `MainMenuScene.handle_keydown`: space/return advances the text; once
the text is complete, 1/return starts the game, 2 opens settings, 3 exits
the process (`pygame.quit(); sys.exit()`). -/
def MenuState.handle_keydown (m : MenuState) (k : Key) : Except PyError MenuState :=
  let m1 := if k = .space ∨ k = .ret then { m with text := m.text.advance_text } else m
  if m1.text.text_complete then
    if k = .num1 ∨ k = .ret then .ok { m1 with next_scene := some "CH0_PHASE_01" }
    else if k = .num2 then .ok { m1 with next_scene := some "settings" }
    else if k = .num3 then .error .systemExit
    else .ok m1
  else .ok m1

/-- `GameScene.handle_keydown`: space/return advances the text; keys 1-3
select a choice only when the text is complete and the current event has
a non-empty choice list. -/
def GameSceneState.handle_keydown (gs : GameSceneState) (es : EmotionSystem)
    (k : Key) : Except PyError (GameSceneState × EmotionSystem) :=
  let gs1 := if k = .space ∨ k = .ret then { gs with text := gs.text.advance_text } else gs
  let ready := gs1.text.text_complete &&
    (match gs1.current_event with
     | some ev => !ev.choices.isEmpty
     | none => false)
  if ready then
    if k = .num1 then gs1.on_choice_selected es 0
    else if k = .num2 then gs1.on_choice_selected es 1
    else if k = .num3 then gs1.on_choice_selected es 2
    else .ok (gs1, es)
  else .ok (gs1, es)

/-- Keydown dispatch of `SceneManager.handle_event` to the active slot. -/
def SceneObj.handle_keydown (obj : SceneObj) (es : EmotionSystem) (k : Key) :
    Except PyError (SceneObj × EmotionSystem) :=
  match obj with
  | .menu m =>
    match m.handle_keydown k with
    | .error e => .error e
    | .ok m1 => .ok (.menu m1, es)
  | .game g =>
    match g.handle_keydown es k with
    | .error e => .error e
    | .ok p => .ok (.game p.1, p.2)

/-- The narrative-relevant state of the `Game` object.  `game_data` is the
empty dict for the whole session (written only by `load_game`, read by
nothing) and is not represented. -/
structure Game where
  current_scene : String
  emotion_system : EmotionSystem
  scene_manager : SceneManagerState

/-- `Game.__init__`: `current_scene = "main_menu"`, fresh emotion system
(decay rate from config, default 0.1/minute) and scene manager. -/
def Game.init (decay_rate : ℚ) (now : ℚ) : Game where
  current_scene := "main_menu"
  emotion_system := EmotionSystem.init decay_rate now
  scene_manager := SceneManagerState.init

/-- The `load_scene(self.current_scene)` performed at the top of
`Game.run` before the loop starts. -/
def Game.start (g : Game) : Game :=
  { g with scene_manager := (g.scene_manager.load_scene g.current_scene).1 }

/-- Key handling of one frame: `Game._handle_keydown` reacts only to
ESC/F-keys, and the event is then passed to the active scene. -/
def Game.handle_key (g : Game) (k : Key) : Except PyError Game :=
  match g.scene_manager.current_scene with
  | none => .ok g
  | some c =>
    match (g.scene_manager.states c).handle_keydown g.emotion_system k with
    | .error e => .error e
    | .ok (obj, es) =>
      .ok { g with
        emotion_system := es,
        scene_manager := { g.scene_manager with
          states := updKey g.scene_manager.states c obj } }

/-- `Game._transition_to_scene` (screenshots and ambient sound omitted):
caches the scene state, updates `current_scene`, loads the new scene. -/
def Game.transition_to_scene (g : Game) (scene_id : String) : Game :=
  let g1 := { g with
    current_scene := scene_id,
    scene_manager := g.scene_manager.save_scene_state }
  { g1 with scene_manager := (g1.scene_manager.load_scene scene_id).1 }

/-- One iteration of `Game.run`'s loop: `_handle_events` (an optional key
press), then `_update` = `scene_manager.update()` followed by
`_check_scene_transitions` — note the ordering: a pending `next_scene` is
consumed by `scene_manager.update` before `_check_scene_transitions` can
observe it. -/
def Game.frame (g : Game) (input : Option Key) (dt : ℚ) : Except PyError Game :=
  let step1 : Except PyError Game := match input with
    | none => .ok g
    | some k => g.handle_key k
  match step1 with
  | .error e => .error e
  | .ok g1 =>
    let g2 := { g1 with scene_manager := g1.scene_manager.update dt }
    match g2.scene_manager.get_next_scene with
    | some ns => if ns ≠ g2.current_scene then .ok (g2.transition_to_scene ns) else .ok g2
    | none => .ok g2

/-- The save blob of `Game.save_game` (`game_data` is always the empty
dict and is not represented; file I/O is outside the core). -/
structure SaveData where
  current_scene : String
  emotions : EmotionSaveData
  scene_state : List (String × Option Scene)

/-- `Game.save_game`. -/
def Game.save_game (g : Game) : SaveData where
  current_scene := g.current_scene
  emotions := g.emotion_system.save_emotions
  scene_state := g.scene_manager.scene_states

/-- `Game.load_game` on an existing save blob: restores `current_scene`,
the emotion state and the scene-state cache, then loads the saved scene
through the scene manager. -/
def Game.load_game (g : Game) (save_data : SaveData) : Game :=
  let g1 := { g with
    current_scene := save_data.current_scene,
    emotion_system := g.emotion_system.load_emotions save_data.emotions,
    scene_manager := { g.scene_manager with scene_states := save_data.scene_state } }
  { g1 with scene_manager := (g1.scene_manager.load_scene g1.current_scene).1 }

/-- The scene id of the active scene object (`scene_id` attribute; both
menu instances carry `"main_menu"`). -/
def Game.activeSceneId (g : Game) : Option String :=
  match g.scene_manager.current_scene with
  | none => none
  | some c =>
    match g.scene_manager.states c with
    | .menu _ => some "main_menu"
    | .game gs => some gs.scene_id

/-- The event index of the active scene object (game scenes only). -/
def Game.activeEventIndex (g : Game) : Option Nat :=
  match g.scene_manager.current_scene with
  | none => none
  | some c =>
    match g.scene_manager.states c with
    | .menu _ => none
    | .game gs => some gs.current_event_index

/-- The engine state at the top of `Game.run` (construction time 0,
config-default decay rate). -/
def gameStart : Game := (Game.init (1/10) 0).start

/-- Reachability: the states the engine can be in after `Game.run` has
loaded the initial scene and some frames have run. -/
inductive Reachable : Game → Prop
  | init : Reachable gameStart
  | step {g g' : Game} (input : Option Key) (dt : ℚ) :
      Reachable g → g.frame input dt = .ok g' → Reachable g'

/-- The state after one frame with a space key (completes the menu text). -/
def c2Step1 : Game := ((gameStart.frame (some .space) 0).toOption).getD gameStart

/-- The state after a further frame with key 1: the menu requests
`CH0_PHASE_01` and `SceneManager.update` consumes the request, so the
active scene is `CH0_PHASE_01` at event 0 — while `Game.current_scene`
still reads `"main_menu"`. -/
def c2State : Game := ((c2Step1.frame (some .num1) 0).toOption).getD c2Step1


/-- A fresh emotion system with the config-default decay rate, created at
time 0 (used as concrete input in several theorems). -/
def esInit : EmotionSystem := EmotionSystem.init (1/10) 0

/-- The placeholder used when projecting an event out of an `Option`. -/
def noEvent : SceneEvent := { id := "", text := "", choices := [] }

/-- Event `CH0_E01`, the first event of `CH0_PHASE_01`. -/
def evCH0E01 : SceneEvent := (CH0_PHASE_01.events.get? 0).getD noEvent

/-- Event `CH0_E03`, the last event of `CH0_PHASE_01` (index 2 of 3). -/
def evCH0E03 : SceneEvent := (CH0_PHASE_01.events.get? 2).getD noEvent

/-- Event `CH0_E12`, the last event of `CH0_PHASE_04`; its three choices
all carry `next_scene = "CH1_PHASE_01"` and the last one has no
`emotion_effects`. -/
def evCH0E12 : SceneEvent := (CH0_PHASE_04.events.get? 2).getD noEvent

/-- A `GameScene` for `CH0_PHASE_01` positioned on its first event
`CH0_E01` (the state `load_scene_data` produces, text already advanced). -/
def gsCH0E01 : GameSceneState :=
  { scene_id := "CH0_PHASE_01", scene_data := some CH0_PHASE_01,
    current_event_index := 0, current_event := some evCH0E01,
    text := (set_text evCH0E01.text).advance_text, is_active := true }

/-- A `GameScene` for `CH0_PHASE_01` positioned on its last event
`CH0_E03`. -/
def gsCH0E03 : GameSceneState :=
  { scene_id := "CH0_PHASE_01", scene_data := some CH0_PHASE_01,
    current_event_index := 2, current_event := some evCH0E03,
    text := (set_text evCH0E03.text).advance_text, is_active := true }

/-- A `GameScene` for `CH0_PHASE_04` positioned on its last event
`CH0_E12`. -/
def gsCH0E12 : GameSceneState :=
  { scene_id := "CH0_PHASE_04", scene_data := some CH0_PHASE_04,
    current_event_index := 2, current_event := some evCH0E12,
    text := (set_text evCH0E12.text).advance_text, is_active := true }

/-- The emotion state after restoring a blob whose stored `"执念"` value
is 150 — outside `[0, 100]`. -/
def c9Loaded : EmotionSystem :=
  esInit.load_emotions
    { emotions := some [{ name := "执念", value := 150, last_update := 0 }]
      history := none }


/-! ## Theorems -/

/-- Mutation calls never touch the `min_value`/`max_value` fields. -/
theorem applyOp_bounds_fixed (sys : EmotionSystem) (op : EmotionOp) (t : EmotionType) :
    ((applyOp sys op).emotions t).min_value = (sys.emotions t).min_value ∧
    ((applyOp sys op).emotions t).max_value = (sys.emotions t).max_value := by
  cases op with
  | update t0 d now =>
    by_cases h : t = t0 <;>
      simp [applyOp, EmotionSystem.update_emotion, EmotionValue.update, h]
  | setValue t0 v now =>
    by_cases h : t = t0 <;>
      simp [applyOp, EmotionSystem.set_emotion, EmotionValue.set_value, h]

/-- One mutation call keeps every axis inside its bounds. -/
theorem applyOp_inBounds (sys : EmotionSystem)
    (hwf : ∀ u, (sys.emotions u).min_value ≤ (sys.emotions u).max_value)
    (hb : InBounds sys) (op : EmotionOp) : InBounds (applyOp sys op) := by
  intro t
  cases op with
  | update t0 d now =>
    by_cases h : t = t0
    · subst h
      simp only [applyOp, EmotionSystem.update_emotion, EmotionValue.update,
        if_pos rfl]
      exact ⟨le_max_left _ _, max_le (hwf t) (min_le_left _ _)⟩
    · simpa [applyOp, EmotionSystem.update_emotion, h] using hb t
  | setValue t0 v now =>
    by_cases h : t = t0
    · subst h
      simp only [applyOp, EmotionSystem.set_emotion, EmotionValue.set_value,
        if_pos rfl]
      exact ⟨le_max_left _ _, max_le (hwf t) (min_le_left _ _)⟩
    · simpa [applyOp, EmotionSystem.set_emotion, h] using hb t

/-- The invariant and the bound well-formedness survive any call sequence. -/
theorem applyOps_invariant (ops : List EmotionOp) : ∀ sys : EmotionSystem,
    (∀ u, (sys.emotions u).min_value ≤ (sys.emotions u).max_value) →
    InBounds sys →
    InBounds (applyOps sys ops) ∧
      ∀ u, ((applyOps sys ops).emotions u).min_value ≤
        ((applyOps sys ops).emotions u).max_value := by
  induction ops with
  | nil => exact fun sys h1 h2 => ⟨h2, h1⟩
  | cons op rest ih =>
    intro sys h1 h2
    have hfix := applyOp_bounds_fixed sys op
    have h1' : ∀ u, ((applyOp sys op).emotions u).min_value ≤
        ((applyOp sys op).emotions u).max_value := by
      intro u
      rw [(hfix u).1, (hfix u).2]
      exact h1 u
    have h2' := applyOp_inBounds sys h1 h2 op
    simpa [applyOps, List.foldl] using ih (applyOp sys op) h1' h2'

/-- C1.  For every emotion axis and every sequence of `update_emotion` /
`set_emotion` calls on a freshly initialized emotion system — any deltas,
values and timestamps — `min_value ≤ value ≤ max_value` holds after every
call: instantiating `ops` with each prefix of a call sequence gives the
invariant at every intermediate state, enforced by the clamping inside
`EmotionValue.update` and `EmotionValue.set_value`. -/
theorem emotion_bounds_invariant (decay_rate t0 : ℚ) (ops : List EmotionOp) :
    InBounds (applyOps (EmotionSystem.init decay_rate t0) ops) := by
  have h1 : ∀ u, ((EmotionSystem.init decay_rate t0).emotions u).min_value ≤
      ((EmotionSystem.init decay_rate t0).emotions u).max_value := by
    intro u
    norm_num [EmotionSystem.init]
  have h2 : InBounds (EmotionSystem.init decay_rate t0) := by
    intro u
    norm_num [EmotionSystem.init]
  exact (applyOps_invariant ops _ h1 h2).1

/-- C8.  The decay scenario: an axis created at time `t0` with value 0 and
decay rate 6 per minute, updated with `+10` at `t0` and with `+0` sixty
seconds later, ends at `10 - 6 = 4`. -/
theorem decay_scenario (t0 : ℚ) (axis : EmotionType) :
    ((((EmotionSystem.init 6 t0).update_emotion axis 10 t0).update_emotion
      axis 0 (t0 + 60)).emotions axis).value = 4 := by
  simp only [EmotionSystem.init, EmotionSystem.update_emotion,
    EmotionValue.update, if_pos rfl]
  norm_num

/-- C9.  `load_emotions` writes persisted values into the emotion state
verbatim, with no clamping: restoring a blob whose `"执念"` value is 150
leaves that axis at 150, strictly above its `max_value` of 100 — the
bound invariant that `update`/`set_value` maintain is not re-established
by the restore path. -/
theorem load_emotions_bypasses_clamp :
    (c9Loaded.emotions EmotionType.obsession).value = 150 ∧
    (c9Loaded.emotions EmotionType.obsession).max_value <
      (c9Loaded.emotions EmotionType.obsession).value := by
  constructor <;> decide


/-- Helper for C7: the Python `max(..., key=...)` fold over the axes in
enumeration order returns an axis whose value is maximal, and every axis
strictly earlier in the enumeration has a strictly smaller value (first
maximal element wins ties). -/
theorem pyMaxFold_dominant (v : EmotionType → ℚ) :
    (∀ u, v u ≤ v (pyMaxFold v EmotionType.obsession
      [EmotionType.anger, EmotionType.depression, EmotionType.affection,
       EmotionType.determination])) ∧
    ∀ u, u.enumIdx < (pyMaxFold v EmotionType.obsession
      [EmotionType.anger, EmotionType.depression, EmotionType.affection,
       EmotionType.determination]).enumIdx →
      v u < v (pyMaxFold v EmotionType.obsession
        [EmotionType.anger, EmotionType.depression, EmotionType.affection,
         EmotionType.determination]) := by
  simp only [pyMaxFold]
  split_ifs with h1 h2 h3 h4 h5 h6 h7 h8 h9 h10 h11 h12 h13 h14 h15 <;>
    refine ⟨fun u => ?_, fun u hu => ?_⟩ <;>
    cases u <;>
    simp_all [EmotionType.enumIdx] <;>
    linarith

/-- C7.  In every state, `get_emotion_summary`'s `dominant_emotion` names
an axis whose value equals the maximum over all axes, ties broken by
enumeration order of the axis set (every strictly earlier axis has a
strictly smaller value), and it is `none` exactly when that maximum is
`≤ 0`. -/
theorem dominant_axis_correct (sys : EmotionSystem) :
    (∀ name, (sys.get_emotion_summary).dominant_emotion = some name →
      ∃ t : EmotionType, name = t.display ∧ 0 < (sys.emotions t).value ∧
        (∀ u, (sys.emotions u).value ≤ (sys.emotions t).value) ∧
        ∀ u, u.enumIdx < t.enumIdx → (sys.emotions u).value < (sys.emotions t).value) ∧
    ((sys.get_emotion_summary).dominant_emotion = none ↔
      ∀ t, (sys.emotions t).value ≤ 0) := by
  have hd := pyMaxFold_dominant (fun t => (sys.emotions t).value)
  set r := pyMaxFold (fun t => (sys.emotions t).value) EmotionType.obsession
    [EmotionType.anger, EmotionType.depression, EmotionType.affection,
     EmotionType.determination] with hr
  by_cases h : (sys.emotions r).value > 0
  · have hsome : (sys.get_emotion_summary).dominant_emotion = some r.display := by
      simp only [EmotionSystem.get_emotion_summary, EmotionSystem.get_dominant_emotion,
        ← hr, if_pos h]
    constructor
    · intro name hname
      rw [hsome] at hname
      exact ⟨r, (Option.some.inj hname).symm, h, hd.1, hd.2⟩
    · rw [hsome]
      constructor
      · intro hnone
        exact absurd hnone (by simp)
      · intro hall
        exact absurd h (not_lt.2 (hall r))
  · have hnone : (sys.get_emotion_summary).dominant_emotion = none := by
      simp only [EmotionSystem.get_emotion_summary, EmotionSystem.get_dominant_emotion,
        ← hr, if_neg h]
    constructor
    · intro name hname
      rw [hnone] at hname
      exact absurd hname (by simp)
    · rw [hnone]
      simp only [true_iff]
      intro t
      exact le_trans (hd.1 t) (not_lt.1 h)

/-- Witness for C7 at a concrete state (the restored state of C9, whose
`"执念"` axis holds 150): the first conjunct of `dominant_axis_correct`
fires and produces the dominant-axis description. -/
theorem dominant_axis_correct_witness :
    ∃ t : EmotionType, "执念" = t.display ∧ 0 < (c9Loaded.emotions t).value ∧
      (∀ u, (c9Loaded.emotions u).value ≤ (c9Loaded.emotions t).value) ∧
      ∀ u, u.enumIdx < t.enumIdx →
        (c9Loaded.emotions u).value < (c9Loaded.emotions t).value :=
  (dominant_axis_correct c9Loaded).1 "执念" (by decide)

/-- C3.  `Game.update_emotion_by_name` raises `AttributeError` for every
display name — the recognized `"执念"` as much as an unrecognized one —
because `EmotionSystem.update_emotion_by_name`, the method it delegates
to, is defined nowhere in the repository; consequently
`on_choice_selected` on choice `CH0_CHOICE_01A` of event `CH0_E01` (its
single effect carries the valid axis name `"执念"`) is aborted by that
exception instead of applying any effect. -/
theorem update_by_name_attribute_error :
    Game.update_emotion_by_name esInit "执念" 10 = .error .attributeError ∧
    Game.update_emotion_by_name esInit "不存在的情感" 10 = .error .attributeError ∧
    gsCH0E01.on_choice_selected esInit 0 = .error .attributeError :=
  ⟨rfl, rfl, rfl⟩

/-- C4.  Whenever `choice_index` is at least the current event's choice
count, `on_choice_selected` silently returns with the whole state — the
scene cursor and the emotion system — unchanged. -/
theorem choice_out_of_range_rejected (gs : GameSceneState) (es : EmotionSystem)
    (ev : SceneEvent) (choice_index : Int) (hev : gs.current_event = some ev)
    (hi : (ev.choices.length : Int) ≤ choice_index) :
    gs.on_choice_selected es choice_index = .ok (gs, es) := by
  simp only [GameSceneState.on_choice_selected, hev, if_pos hi]

/-- Witness for C4: index 3 on the three-choice event `CH0_E01`. -/
theorem choice_out_of_range_rejected_witness :
    gsCH0E01.on_choice_selected esInit 3 = .ok (gsCH0E01, esInit) :=
  choice_out_of_range_rejected gsCH0E01 esInit evCH0E01 3 rfl (by decide)

/-- C5.  On the last event `CH0_E03` of `CH0_PHASE_01`, applying choice 0
(no `next_scene`) raises `AttributeError` while applying its emotion
effects — before any cursor move — whereas the cursor-advance code itself,
`move_to_next_event`, does wrap the index back to 0 of the same scene,
with the scene still loaded (not idle). -/
theorem wrap_scenario_attribute_error :
    gsCH0E03.on_choice_selected esInit 0 = .error .attributeError ∧
    gsCH0E03.move_to_next_event.current_event_index = 0 ∧
    gsCH0E03.move_to_next_event.scene_id = gsCH0E03.scene_id ∧
    gsCH0E03.move_to_next_event.scene_data = some CH0_PHASE_01 ∧
    gsCH0E03.move_to_next_event.current_event = some evCH0E01 :=
  ⟨rfl, rfl, rfl, rfl, rfl⟩

/-- C6.  `SceneManager.load_scene` on a scene id absent from the registry
falls back to the `"main_menu"` scene and prints the warning diagnostic;
the function is total (it cannot throw). -/
theorem enter_unknown_scene_falls_back (sm : SceneManagerState) (scene_id : String)
    (h : keyOfString scene_id = none) :
    (sm.load_scene scene_id).1.current_scene = some SceneKey.main_menu ∧
    ("Warning: Scene '" ++ scene_id ++ "' not found, using main menu")
      ∈ (sm.load_scene scene_id).2 := by
  constructor <;> simp [SceneManagerState.load_scene, h]

/-- Witness for C6: the unknown id `"CH2_PHASE_01"` on the fresh manager. -/
theorem enter_unknown_scene_falls_back_witness :
    (SceneManagerState.init.load_scene "CH2_PHASE_01").1.current_scene =
      some SceneKey.main_menu ∧
    ("Warning: Scene 'CH2_PHASE_01' not found, using main menu")
      ∈ (SceneManagerState.init.load_scene "CH2_PHASE_01").2 :=
  enter_unknown_scene_falls_back SceneManagerState.init "CH2_PHASE_01" (by decide)

/-- C10.  A negative choice index is not rejected by the
`choice_index >= len(choices)` guard: on event `CH0_E12` (three choices),
index `-1` selects the existing last choice `CH0_CHOICE_12C` via Python
negative indexing and applies it — here its scene transition to
`CH1_PHASE_01` — instead of being treated as out of range. -/
theorem negative_choice_index_not_rejected :
    (pyListGet evCH0E12.choices (-1)).map (fun c => c.id) = some "CH0_CHOICE_12C" ∧
    gsCH0E12.on_choice_selected esInit (-1) =
      .ok ({ gsCH0E12 with next_scene := some "CH1_PHASE_01" }, esInit) :=
  ⟨rfl, rfl⟩

/-- Counterexample for C2.  A reachable state (main menu → key 1 → the
engine is inside `CH0_PHASE_01` at event 0) whose save/load round trip
does **not** reproduce the cursor: the blob stores `Game.current_scene`,
which transitions never update (the pending `next_scene` is consumed by
`SceneManager.update` before `_check_scene_transitions` reads it), so the
restored engine sits in the main menu instead of `CH0_PHASE_01`, and no
event index is serialized at all. -/
theorem save_load_roundtrip_counterexample :
    Reachable c2State ∧
    c2State.activeSceneId = some "CH0_PHASE_01" ∧
    c2State.activeEventIndex = some 0 ∧
    (c2State.load_game c2State.save_game).activeSceneId = some "main_menu" ∧
    (c2State.load_game c2State.save_game).activeEventIndex = none ∧
    (c2State.load_game c2State.save_game).activeSceneId ≠ c2State.activeSceneId := by
  have h1 : gameStart.frame (some .space) 0 = .ok c2Step1 := rfl
  have h2 : c2Step1.frame (some .num1) 0 = .ok c2State := rfl
  refine ⟨Reachable.step _ _ (Reachable.step _ _ Reachable.init h1) h2,
    rfl, rfl, rfl, rfl, ?_⟩
  decide

/-- C2 as amended.  `load_game (save_game g)` reproduces every emotion
axis value exactly, but of the cursor it restores only the stale
`Game.current_scene` field (with the main-menu fallback for unknown ids);
the active scene after the restore is that saved id, not the scene that
was actually active, and game scenes restart from event 0 because the
event index is never serialized. -/
theorem save_load_restores_emotions_not_cursor (g : Game) :
    (∀ t, (((g.load_game g.save_game).emotion_system).emotions t).value =
      ((g.emotion_system).emotions t).value) ∧
    (g.load_game g.save_game).scene_manager.current_scene =
      some ((keyOfString g.current_scene).getD SceneKey.main_menu) := by
  constructor
  · intro t
    cases t <;> rfl
  · cases h : keyOfString g.current_scene <;>
      simp [Game.load_game, Game.save_game, SceneManagerState.load_scene, h]

end SimToSurvive
